import Mathlib

/-!
Shallow embedding of the data-access layer of `src/app.py` (masterblog):
a JSON-file-backed blog store with a monotone uid counter, plus the route
handlers (`add`, `delete`, `update`) modelled as pure functions from a
file state and a request to a new file state and a response.

Python dictionaries `{"uid": ..., "author": ..., "title": ..., "content": ...}`
and `{"max_uid": ..., "posts": ...}` are embedded as Lean structures;
Python's unbounded `int` is `Int`; Python strings are `String`; mutation is
explicit state passing.  The JSON file layer is embedded as a `Json`
inductive with an encoder mirroring `json.dump` of the store dict and a
decoder mirroring `json.load` followed by the field accesses
(`data["max_uid"]`, `data["posts"]`, `post["uid"]`, ...) the handlers rely on.
-/

/-- A blog post dict: `create_blog_post` builds
`{"uid": post_uid, "author": author, "title": title, "content": content}`
(src/app.py lines 81-95). -/
structure Post where
  uid : Int
  author : String
  title : String
  content : String
deriving DecidableEq, Repr

/-- The blog store dict `{"max_uid": ..., "posts": [...]}` (src/app.py
lines 18-21 and throughout). -/
structure BlogData where
  max_uid : Int
  posts : List Post
deriving DecidableEq, Repr

/-- `DEFAULT_BLOG_STRUCTURE = {"max_uid": 0, "posts": []}` (src/app.py
lines 18-21), as a value (aliasing of its `posts` list is modelled
separately in the heap model below). -/
def DEFAULT_BLOG_STRUCTURE : BlogData := { max_uid := 0, posts := [] }

/-! ## JSON layer: `json.dump` / `json.load` for the store shape -/

/-- JSON values, as produced by Python's `json` module for the data this
program writes. -/
inductive Json where
  | jnum (n : Int)
  | jstr (s : String)
  | jarr (elems : List Json)
  | jobj (fields : List (String × Json))

/-- Key lookup in a JSON object, first match (Python dicts have unique
keys; the encoder below only emits unique keys). -/
def jlookup : List (String × Json) → String → Option Json
  | [], _ => none
  | (k, v) :: rest, key => if k = key then some v else jlookup rest key

/-- `json.dump` of a post dict. -/
def encodePost (p : Post) : Json :=
  .jobj [("uid", .jnum p.uid), ("author", .jstr p.author),
         ("title", .jstr p.title), ("content", .jstr p.content)]

/-- `json.dump` of the store dict. -/
def encodeBlogData (bd : BlogData) : Json :=
  .jobj [("max_uid", .jnum bd.max_uid),
         ("posts", .jarr (bd.posts.map encodePost))]

/-- Reading a post dict back out of parsed JSON: the four field accesses
the handlers perform.  `none` when the JSON does not have the post shape. -/
def decodePost : Json → Option Post
  | .jobj fields =>
    match jlookup fields "uid", jlookup fields "author",
          jlookup fields "title", jlookup fields "content" with
    | some (.jnum u), some (.jstr a), some (.jstr t), some (.jstr c) =>
        some { uid := u, author := a, title := t, content := c }
    | _, _, _, _ => none
  | _ => none

/-- Decode a JSON array of post dicts. -/
def decodePosts : List Json → Option (List Post)
  | [] => some []
  | j :: rest =>
    match decodePost j, decodePosts rest with
    | some p, some ps => some (p :: ps)
    | _, _ => none

/-- Reading the store dict back out of parsed JSON (`data["max_uid"]`,
`data["posts"]`).  `none` when the JSON does not have the store shape. -/
def decodeBlogData : Json → Option BlogData
  | .jobj fields =>
    match jlookup fields "max_uid", jlookup fields "posts" with
    | some (.jnum m), some (.jarr js) =>
        (decodePosts js).map (fun ps => { max_uid := m, posts := ps })
    | _, _ => none
  | _ => none

/-! ## File operations (src/app.py lines 26-55) -/

/-- The observable states of `BLOG_DATA_FILE` as `load_blog_data`
distinguishes them: missing (`os.path.exists` false), present but not
valid JSON (`json.JSONDecodeError`), present but unreadable (`IOError`),
or readable with JSON content `j`. -/
inductive FileState where
  | absent
  | corrupted
  | ioError
  | valid (j : Json)

/-- `load_blog_data` (src/app.py lines 26-44): missing, corrupted or
unreadable file → a copy of `DEFAULT_BLOG_STRUCTURE`; otherwise the parsed
JSON.  The Python code returns the parsed value as-is; `decodeBlogData`
expresses the store-shaped reads every caller performs on it, and every
`valid` state produced in this development comes from `save_blog_data`,
where the decode succeeds. -/
def load_blog_data : FileState → BlogData
  | .absent => DEFAULT_BLOG_STRUCTURE
  | .corrupted => DEFAULT_BLOG_STRUCTURE
  | .ioError => DEFAULT_BLOG_STRUCTURE
  | .valid j => (decodeBlogData j).getD DEFAULT_BLOG_STRUCTURE

/-- `save_blog_data` (src/app.py lines 47-55) on the success path:
overwrites the file with `json.dump(blog_data)`.  (On `IOError` the write
is logged and dropped, leaving the file unchanged; the claims below only
concern successful saves.) -/
def save_blog_data (blog_data : BlogData) : FileState :=
  .valid (encodeBlogData blog_data)

/-! ## Data operations (src/app.py lines 60-107) -/

/-- `get_next_uid` (src/app.py lines 60-67): `blog_data["max_uid"] += 1;
return blog_data["max_uid"]`.  Mutation is returned as the second
component. -/
def get_next_uid (blog_data : BlogData) : Int × BlogData :=
  let updated : BlogData := { blog_data with max_uid := blog_data.max_uid + 1 }
  (updated.max_uid, updated)

/-- `find_post_by_uid` (src/app.py lines 70-78): linear scan, first post
whose `"uid"` equals `post_uid`, else `None`. -/
def find_post_by_uid : List Post → Int → Option Post
  | [], _ => none
  | post :: rest, post_uid =>
    if post.uid = post_uid then some post else find_post_by_uid rest post_uid

/-- `create_blog_post` (src/app.py lines 81-95): pure constructor. -/
def create_blog_post (author title content : String) (post_uid : Int) : Post :=
  { uid := post_uid, author := author, title := title, content := content }

/-- Python `list.remove(x)`: delete the first element equal to `x`.
(Python raises `ValueError` when `x` is absent; the only call site passes
an element of the list, so that branch is unreachable and modelled as the
identity.) -/
def pyRemove : List Post → Post → List Post
  | [], _ => []
  | y :: ys, x => if y = x then ys else y :: pyRemove ys x

/-- `delete_post_from_list` (src/app.py lines 98-107): find the first post
with the uid; if found (a found post dict has at least its `"uid"` key, so
it is a non-empty dict and truthy), `blog_posts.remove` it and return
`True`; else return `False`.  The mutated list is returned alongside the
flag. -/
def delete_post_from_list (blog_posts : List Post) (post_uid : Int) :
    List Post × Bool :=
  match find_post_by_uid blog_posts post_uid with
  | some post_to_delete => (pyRemove blog_posts post_to_delete, true)
  | none => (blog_posts, false)

/-! ## Form extraction and validation (src/app.py lines 112-135) -/

/-- Python `str.strip()` whitespace (the ASCII whitespace characters
Python strips; the claims only concern these). -/
def isPyWhitespace (c : Char) : Bool :=
  c = ' ' || c = '\t' || c = '\n' || c = '\x0d' || c = '\x0b' || c = '\x0c'

/-- Python `s.strip()`: drop leading and trailing whitespace. -/
def pyStrip (s : String) : String :=
  ⟨((s.data.dropWhile isPyWhitespace).reverse.dropWhile isPyWhitespace).reverse⟩

/-- A submitted form: each field is `some v` when present in
`request.form`, `none` when missing. -/
structure Form where
  author : Option String
  title : Option String
  content : Option String

/-- `extract_form_data` (src/app.py lines 112-121):
`request.form.get(field, "").strip()` for the three fields. -/
def extract_form_data (f : Form) : String × String × String :=
  (pyStrip (f.author.getD ""), pyStrip (f.title.getD ""),
   pyStrip (f.content.getD ""))

/-- `validate_blog_data` (src/app.py lines 124-135): first empty field
wins (`not s` in Python is true exactly for the empty string); `""` means
valid. -/
def validate_blog_data (author title content : String) : String :=
  if author = "" then "Author name is required"
  else if title = "" then "Post title is required"
  else if content = "" then "Post content is required"
  else ""

/-! ## Seeding (src/app.py lines 140-163) -/

/-- First sample post written by `initialize_sample_data`. -/
def samplePost0 : Post :=
  { uid := 0, author := "John Doe", title := "First Post",
    content := "This is my first post." }

/-- Second sample post written by `initialize_sample_data`. -/
def samplePost1 : Post :=
  { uid := 1, author := "Jane Doe", title := "Second Post",
    content := "This is another post." }

/-- `initialize_sample_data` (src/app.py lines 140-163): only when the
file does not exist, save `{"max_uid": 1, "posts": [sample0, sample1]}`;
any existing file (even corrupted or unreadable) is left untouched. -/
def initialize_sample_data (fs : FileState) : FileState :=
  match fs with
  | .absent => save_blog_data { max_uid := 1, posts := [samplePost0, samplePost1] }
  | other => other

/-! ## Route handlers (src/app.py lines 166-258), as pure functions -/

/-- The responses the handlers can produce. -/
inductive Response where
  | redirectIndex
  | notFound
  | renderAddForm (error : String)
  | renderUpdateForm (post : Post) (error : Option String)
deriving DecidableEq, Repr

/-- HTTP method of a request to `/update/<uid>`. -/
inductive Method where
  | get
  | post
deriving DecidableEq, Repr

/-- The POST branch of the `add` handler (src/app.py lines 183-205):
extract, validate (an error message is truthy iff non-empty), and on
success load, mint the next uid, append the new post and save. -/
def add_route (fs : FileState) (f : Form) : FileState × Response :=
  let (author, title, content) := extract_form_data f
  let error_message := validate_blog_data author title content
  if error_message ≠ "" then
    (fs, .renderAddForm error_message)
  else
    let blog_data := load_blog_data fs
    let (post_uid, blog_data) := get_next_uid blog_data
    let new_post := create_blog_post author title content post_uid
    let blog_data := { blog_data with posts := blog_data.posts ++ [new_post] }
    (save_blog_data blog_data, .redirectIndex)

/-- The `delete` handler (src/app.py lines 208-223): load, try the
removal, save only when something was removed (otherwise only a log line),
and always redirect to the index. -/
def delete_route (fs : FileState) (post_uid : Int) : FileState × Response :=
  let blog_data := load_blog_data fs
  let (posts, was_deleted) := delete_post_from_list blog_data.posts post_uid
  if was_deleted then
    (save_blog_data { blog_data with posts := posts }, .redirectIndex)
  else
    (fs, .redirectIndex)

/-- Overwrite the three mutable fields of the first post with the given
uid, in place (the Python code mutates the dict `find_post_by_uid`
returned, which is the first match inside `blog_data["posts"]`). -/
def updateFirstByUid (posts : List Post) (post_uid : Int)
    (author title content : String) : List Post :=
  match posts with
  | [] => []
  | p :: ps =>
    if p.uid = post_uid then
      { p with author := author, title := title, content := content } :: ps
    else
      p :: updateFirstByUid ps post_uid author title content

/-- The `update` handler (src/app.py lines 226-258): load and look the
post up before branching on the method; absent uid → `"Post not found",
404` for both methods; GET renders the pre-filled form; POST validates,
and on success overwrites the found post's three fields and saves. -/
def update_route (fs : FileState) (post_uid : Int) (m : Method) (f : Form) :
    FileState × Response :=
  let blog_data := load_blog_data fs
  match find_post_by_uid blog_data.posts post_uid with
  | none => (fs, .notFound)
  | some post =>
    match m with
    | .get => (fs, .renderUpdateForm post none)
    | .post =>
      let (author, title, content) := extract_form_data f
      let error_message := validate_blog_data author title content
      if error_message ≠ "" then
        (fs, .renderUpdateForm post (some error_message))
      else
        let posts := updateFirstByUid blog_data.posts post_uid author title content
        (save_blog_data { blog_data with posts := posts }, .redirectIndex)

/-! ## Heap model of the `posts` list aliasing (for `DEFAULT_BLOG_STRUCTURE`)

`DEFAULT_BLOG_STRUCTURE.copy()` (src/app.py line 33) is a *shallow* dict
copy: the copy is a fresh dict whose `"posts"` entry is the very same
Python list object as the module-level default's.  To state this we give
a tiny heap semantics where lists are references into a heap. -/

/-- A reference to a Python list object. -/
structure PyListRef where
  ref : Nat
deriving DecidableEq, Repr

/-- The heap: contents of every list object. -/
def Heap : Type := Nat → List Post

/-- The store dict with its `"posts"` entry by reference. -/
structure BlogDataRef where
  max_uid : Int
  posts : PyListRef
deriving DecidableEq, Repr

/-- The list object held by the module-level `DEFAULT_BLOG_STRUCTURE`. -/
def defaultPostsRef : PyListRef := ⟨0⟩

/-- `DEFAULT_BLOG_STRUCTURE` (src/app.py lines 18-21) with its `posts`
list as a heap reference. -/
def DEFAULT_BLOG_STRUCTURE_ref : BlogDataRef :=
  { max_uid := 0, posts := defaultPostsRef }

/-- The heap at module initialisation: the default's list object is empty. -/
def initialHeap : Heap := fun _ => []

/-- Python `dict.copy()`: a new dict with the same values — the `"posts"`
list reference is shared, not copied. -/
def dictCopy (bd : BlogDataRef) : BlogDataRef :=
  { max_uid := bd.max_uid, posts := bd.posts }

/-- `load_blog_data` on a missing file (src/app.py lines 32-33), at the
reference level: `return DEFAULT_BLOG_STRUCTURE.copy()`. -/
def load_blog_data_absent (h : Heap) : BlogDataRef × Heap :=
  (dictCopy DEFAULT_BLOG_STRUCTURE_ref, h)

/-- `lst.append(p)` on the list object `r`. -/
def heapAppend (h : Heap) (r : PyListRef) (p : Post) : Heap :=
  fun n => if n = r.ref then h n ++ [p] else h n

/-! ## System model for the ever-assigned-uid invariant

A ghost component `assigned` records every uid `get_next_uid` ever
returned.  One step is one request to `add`, `delete` or `update`; the
persistent state is the file. -/

/-- File state plus the ghost list of uids ever returned by
`get_next_uid`. -/
structure SysState where
  fs : FileState
  assigned : List Int

/-- One request. -/
inductive Op where
  | add (f : Form)
  | del (post_uid : Int)
  | upd (post_uid : Int) (m : Method) (f : Form)

/-- Effect of one request on the file, with the ghost `assigned` extended
exactly when the `add` handler reaches its `get_next_uid` call (i.e. when
validation passes), by the uid that call returns. -/
def stepOp (s : SysState) : Op → SysState
  | .add f =>
    let (author, title, content) := extract_form_data f
    if validate_blog_data author title content ≠ "" then
      { s with fs := (add_route s.fs f).1 }
    else
      { fs := (add_route s.fs f).1,
        assigned := s.assigned ++ [(get_next_uid (load_blog_data s.fs)).1] }
  | .del post_uid => { s with fs := (delete_route s.fs post_uid).1 }
  | .upd post_uid m f => { s with fs := (update_route s.fs post_uid m f).1 }

/-- States reachable from `init` by any sequence of requests. -/
inductive Reachable (init : SysState) : SysState → Prop
  | refl : Reachable init init
  | step {s : SysState} (op : Op) : Reachable init s → Reachable init (stepOp s op)

/-- `n` successive `get_next_uid` calls on `blog_data`, collecting the
returned uids in call order. -/
def runNextUid (blog_data : BlogData) : Nat → List Int × BlogData
  | 0 => ([], blog_data)
  | n + 1 =>
    let (uids, bd) := runNextUid blog_data n
    let (u, bd') := get_next_uid bd
    (uids ++ [u], bd')

/-- The store counter as persisted in a file state. -/
def counterOf (fs : FileState) : Int :=
  (load_blog_data fs).max_uid

/-! ## Round-trip lemmas for the JSON layer -/

lemma decodePost_encodePost (p : Post) : decodePost (encodePost p) = some p := rfl

lemma decodePosts_map_encodePost (ps : List Post) :
    decodePosts (ps.map encodePost) = some ps := by
  induction ps with
  | nil => rfl
  | cons p rest ih => simp [decodePosts, decodePost_encodePost, ih]

lemma decode_encode (bd : BlogData) :
    decodeBlogData (encodeBlogData bd) = some bd := by
  simp [encodeBlogData, decodeBlogData, jlookup, decodePosts_map_encodePost]

lemma load_save (bd : BlogData) :
    load_blog_data (save_blog_data bd) = bd := by
  simp [load_blog_data, save_blog_data, decode_encode]

/-- C3: for every file state in which reading fails — absent, invalid
serialized data, or an I/O error — `load_blog_data` returns the default
store with counter `0` and no posts.  (`load_blog_data` is a total Lean
function, so in the model no exception can propagate; in the source every
failing path is caught and returns this default.) -/
theorem load_blog_data_failure_default :
    load_blog_data .absent = { max_uid := 0, posts := [] } ∧
    load_blog_data .corrupted = { max_uid := 0, posts := [] } ∧
    load_blog_data .ioError = { max_uid := 0, posts := [] } :=
  ⟨rfl, rfl, rfl⟩

/-- C4: for every well-formed store (integer counter and a list of posts
with integer uid and string author/title/content — exactly the `BlogData`
type), a successful `save_blog_data` followed by `load_blog_data` yields a
store equal to the original in counter value and in the full ordered list
of posts. -/
theorem save_then_load_roundtrip (bd : BlogData) :
    (load_blog_data (save_blog_data bd)).max_uid = bd.max_uid ∧
    (load_blog_data (save_blog_data bd)).posts = bd.posts := by
  rw [load_save]
  exact ⟨rfl, rfl⟩

/-- C8: `validate_blog_data` returns the author error exactly when the
author is empty (checked first), otherwise the title error exactly when
the title is empty, otherwise the content error exactly when the content
is empty, and returns `""` (valid) exactly when all three are non-empty. -/
theorem validate_blog_data_cases (author title content : String) :
    (validate_blog_data author title content = "Author name is required" ↔
      author = "") ∧
    (validate_blog_data author title content = "Post title is required" ↔
      (author ≠ "" ∧ title = "")) ∧
    (validate_blog_data author title content = "Post content is required" ↔
      (author ≠ "" ∧ title ≠ "" ∧ content = "")) ∧
    (validate_blog_data author title content = "" ↔
      (author ≠ "" ∧ title ≠ "" ∧ content ≠ "")) := by
  unfold validate_blog_data
  by_cases ha : author = "" <;> by_cases ht : title = "" <;>
    by_cases hc : content = "" <;> simp [ha, ht, hc]

/-! ## The uid sequence produced by repeated `get_next_uid` calls -/

lemma runNextUid_eq (bd : BlogData) (n : Nat) :
    (runNextUid bd n).1 = (List.range n).map (fun j : Nat => bd.max_uid + (j : Int) + 1) ∧
    (runNextUid bd n).2 = { bd with max_uid := bd.max_uid + n } := by
  induction n with
  | zero => simp [runNextUid]
  | succ n ih =>
    obtain ⟨h1, h2⟩ := ih
    refine ⟨?_, ?_⟩
    · simp [runNextUid, h1, h2, get_next_uid, List.range_succ]
    · simp only [runNextUid, h1, h2, get_next_uid]
      congr 1
      push_cast
      ring

/-- C1: starting from a store whose counter is `c`, in any run of `n`
`get_next_uid` calls the `i`-th call (1-based, `1 ≤ i ≤ n`) returns
`c + i`, and the full sequence of returned uids is strictly increasing —
hence no uid is ever returned twice. -/
theorem get_next_uid_ith_call (bd : BlogData) (n i : Nat)
    (h1 : 1 ≤ i) (h2 : i ≤ n) :
    (runNextUid bd n).1[i - 1]? = some (bd.max_uid + i) ∧
    List.Pairwise (· < ·) (runNextUid bd n).1 := by
  obtain ⟨hfst, -⟩ := runNextUid_eq bd n
  constructor
  · rw [hfst]
    have hlt : i - 1 < n := by omega
    rw [List.getElem?_map, List.getElem?_range hlt]
    simp only [Option.map_some']
    congr 1
    have hc : ((i - 1 : Nat) : Int) = (i : Int) - 1 := by omega
    rw [hc]
    ring
  · rw [hfst]
    refine List.Pairwise.map _ ?_ (List.pairwise_lt_range n)
    intro a b hab
    omega

/-- Witness for C1 at a concrete store and call index. -/
theorem get_next_uid_ith_call_witness :
    (runNextUid { max_uid := 5, posts := [] } 4).1[2 - 1]? = some ((5 : Int) + 2) ∧
    List.Pairwise (· < ·) (runNextUid { max_uid := 5, posts := [] } 4).1 :=
  get_next_uid_ith_call { max_uid := 5, posts := [] } 4 2 (by decide) (by decide)

/-! ## Finding and removing posts by uid -/

lemma find_post_by_uid_eq_none_iff (posts : List Post) (u : Int) :
    find_post_by_uid posts u = none ↔ ∀ p ∈ posts, p.uid ≠ u := by
  induction posts with
  | nil => simp [find_post_by_uid]
  | cons p ps ih =>
    by_cases h : p.uid = u <;> simp [find_post_by_uid, h, ih]

lemma find_post_by_uid_eq_some (posts : List Post) (u : Int) (p : Post)
    (h : find_post_by_uid posts u = some p) :
    ∃ l1 l2, posts = l1 ++ p :: l2 ∧ p.uid = u ∧ ∀ q ∈ l1, q.uid ≠ u := by
  induction posts with
  | nil => simp [find_post_by_uid] at h
  | cons q qs ih =>
    by_cases hq : q.uid = u
    · simp only [find_post_by_uid, hq, if_pos, Option.some.injEq] at h
      subst h
      exact ⟨[], qs, rfl, hq, by simp⟩
    · simp only [find_post_by_uid, hq, if_neg, if_false] at h
      obtain ⟨l1, l2, h1, h2, h3⟩ := ih h
      refine ⟨q :: l1, l2, by simp [h1], h2, ?_⟩
      intro r hr
      rcases List.mem_cons.mp hr with hr | hr
      · subst hr; exact hq
      · exact h3 r hr

lemma pyRemove_append_first (l1 l2 : List Post) (p : Post)
    (h : ∀ q ∈ l1, q ≠ p) :
    pyRemove (l1 ++ p :: l2) p = l1 ++ l2 := by
  induction l1 with
  | nil => simp [pyRemove]
  | cons q qs ih =>
    have hq : q ≠ p := h q (by simp)
    have ih' := ih (fun r hr => h r (by simp [hr]))
    simp only [List.cons_append, pyRemove, if_neg hq]
    exact congrArg (List.cons q) ih'

/-- C5: for every list of posts and every uid, if some post has that uid
then `delete_post_from_list` removes exactly the first such post (the list
splits as `l1 ++ p :: l2` with no match in `l1`, and the result is
`l1 ++ l2`, one element shorter) and returns `true`; if no post has the
uid, the list is returned unchanged and the flag is `false`. -/
theorem delete_post_from_list_spec (blog_posts : List Post) (post_uid : Int) :
    ((∃ p ∈ blog_posts, p.uid = post_uid) →
      ∃ l1 p l2, blog_posts = l1 ++ p :: l2 ∧ p.uid = post_uid ∧
        (∀ q ∈ l1, q.uid ≠ post_uid) ∧
        delete_post_from_list blog_posts post_uid = (l1 ++ l2, true) ∧
        (l1 ++ l2).length + 1 = blog_posts.length) ∧
    ((∀ p ∈ blog_posts, p.uid ≠ post_uid) →
      delete_post_from_list blog_posts post_uid = (blog_posts, false)) := by
  constructor
  · intro hex
    have hnone : ¬ find_post_by_uid blog_posts post_uid = none := by
      rw [find_post_by_uid_eq_none_iff]
      push_neg
      obtain ⟨p, hp, hpu⟩ := hex
      exact ⟨p, hp, hpu⟩
    rcases hfind : find_post_by_uid blog_posts post_uid with _ | p
    · exact absurd hfind hnone
    · obtain ⟨l1, l2, hsplit, hpu, hl1⟩ := find_post_by_uid_eq_some _ _ _ hfind
      refine ⟨l1, p, l2, hsplit, hpu, hl1, ?_, by simp [hsplit]; omega⟩
      have hne : ∀ q ∈ l1, q ≠ p := by
        intro q hq hqp
        exact hl1 q hq (hqp ▸ hpu)
      simp only [delete_post_from_list, hfind]
      rw [hsplit, pyRemove_append_first l1 l2 p hne]
  · intro habs
    simp only [delete_post_from_list, (find_post_by_uid_eq_none_iff _ _).mpr habs]

/-- Witness for C5: both branches at concrete lists. -/
theorem delete_post_from_list_spec_witness :
    (∃ l1 p l2, [samplePost0, samplePost1] = l1 ++ p :: l2 ∧ p.uid = 1 ∧
      (∀ q ∈ l1, q.uid ≠ 1) ∧
      delete_post_from_list [samplePost0, samplePost1] 1 = (l1 ++ l2, true) ∧
      (l1 ++ l2).length + 1 = [samplePost0, samplePost1].length) ∧
    delete_post_from_list [samplePost0, samplePost1] 5 =
      ([samplePost0, samplePost1], false) :=
  ⟨(delete_post_from_list_spec [samplePost0, samplePost1] 1).1
      ⟨samplePost1, by decide, by decide⟩,
   (delete_post_from_list_spec [samplePost0, samplePost1] 5).2 (by decide)⟩

/-! ## Behaviour of `update` and `delete` on an absent uid -/

/-- C6: for every uid absent from the store, the `update` handler (either
method) answers the explicit not-found response and leaves the file
untouched, while the `delete` handler leaves the file untouched and
answers the same redirect it always answers (no error surfaced); both are
total functions, so neither crashes. -/
theorem absent_uid_update_notfound_delete_noop (fs : FileState) (post_uid : Int)
    (m : Method) (f : Form)
    (h : find_post_by_uid (load_blog_data fs).posts post_uid = none) :
    update_route fs post_uid m f = (fs, .notFound) ∧
    delete_route fs post_uid = (fs, .redirectIndex) := by
  constructor
  · simp [update_route, h]
  · simp [delete_route, delete_post_from_list, h]

/-- Witness for C6 at a concrete store and uid. -/
theorem absent_uid_update_notfound_delete_noop_witness :
    update_route (save_blog_data { max_uid := 1, posts := [samplePost0] }) 999 .post
        { author := some "A", title := some "T", content := some "C" } =
      (save_blog_data { max_uid := 1, posts := [samplePost0] }, .notFound) ∧
    delete_route (save_blog_data { max_uid := 1, posts := [samplePost0] }) 999 =
      (save_blog_data { max_uid := 1, posts := [samplePost0] }, .redirectIndex) :=
  absent_uid_update_notfound_delete_noop _ 999 .post _ (by decide)

/-! ## Seeding and the end-to-end create scenario -/

/-- Counterexample to C7 as stated: after seeding a fresh (absent) file
the persisted counter is `1`, not `2` (`initialize_sample_data` writes
`"max_uid": 1`); and after the subsequent create the counter is `2`, not
`3`. -/
theorem seed_counter_counterexample :
    (load_blog_data (initialize_sample_data .absent)).max_uid = 1 ∧
    ¬ (load_blog_data (initialize_sample_data .absent)).max_uid = 2 ∧
    (load_blog_data (add_route (initialize_sample_data .absent)
        { author := some "X", title := some "Y", content := some "Z" }).1).max_uid = 2 ∧
    ¬ (load_blog_data (add_route (initialize_sample_data .absent)
        { author := some "X", title := some "Y", content := some "Z" }).1).max_uid = 3 := by
  refine ⟨by decide, by decide, by decide, by decide⟩

/-- C7 (amended): seeding on a fresh (absent) file writes exactly the two
sample posts with uids `0` and `1` and leaves the persisted counter at
`1` — so that the next assigned uid is `2` (`get_next_uid` increments
before returning); a subsequent create then assigns uid `2` to the new
post and the counter becomes `2`. -/
theorem seed_then_create :
    load_blog_data (initialize_sample_data .absent) =
      { max_uid := 1, posts := [samplePost0, samplePost1] } ∧
    load_blog_data (add_route (initialize_sample_data .absent)
        { author := some "X", title := some "Y", content := some "Z" }).1 =
      { max_uid := 2,
        posts := [samplePost0, samplePost1, create_blog_post "X" "Y" "Z" 2] } := by
  refine ⟨by decide, by decide⟩

/-! ## Aliasing of the default store's posts list -/

/-- C9: `load_blog_data` on an absent file returns
`DEFAULT_BLOG_STRUCTURE.copy()`, a shallow copy whose `posts` entry is the
same list object as the module-level default's; appending a post to the
list returned by a first load makes a second load (file still absent)
return a store whose posts list already contains that post instead of
being empty. -/
theorem default_copy_shares_posts_list :
    (load_blog_data_absent initialHeap).1.posts = DEFAULT_BLOG_STRUCTURE_ref.posts ∧
    (let r1 := load_blog_data_absent initialHeap
     let h2 := heapAppend r1.2 r1.1.posts samplePost0
     let r2 := load_blog_data_absent h2
     r2.2 r2.1.posts.ref = [samplePost0] ∧ r2.2 r2.1.posts.ref ≠ []) := by
  refine ⟨rfl, by decide, by decide⟩

/-! ## The counter across requests, and the uids ever assigned -/

lemma validate_blog_data_eq_empty_iff (author title content : String) :
    validate_blog_data author title content = "" ↔
      (author ≠ "" ∧ title ≠ "" ∧ content ≠ "") := by
  unfold validate_blog_data
  by_cases ha : author = "" <;> by_cases ht : title = "" <;>
    by_cases hc : content = "" <;> simp [ha, ht, hc]

lemma counterOf_save (bd : BlogData) : counterOf (save_blog_data bd) = bd.max_uid := by
  simp [counterOf, load_save]

/-- Effect of one request on the persisted counter and the ghost list of
assigned uids: the counter never decreases, and either no uid is assigned,
or exactly the uid `counter + 1` is assigned and the counter becomes
`counter + 1`. -/
lemma stepOp_spec (s : SysState) (op : Op) :
    counterOf s.fs ≤ counterOf (stepOp s op).fs ∧
    ((stepOp s op).assigned = s.assigned ∨
      ((stepOp s op).assigned = s.assigned ++ [counterOf s.fs + 1] ∧
       counterOf (stepOp s op).fs = counterOf s.fs + 1)) := by
  cases op with
  | add f =>
    simp only [stepOp, extract_form_data]
    by_cases hv : validate_blog_data (pyStrip (f.author.getD ""))
        (pyStrip (f.title.getD "")) (pyStrip (f.content.getD "")) = ""
    · simp only [hv, ne_eq, not_true_eq_false, if_false, if_neg]
      constructor
      · simp [add_route, extract_form_data, hv, get_next_uid, counterOf, load_save]
      · right
        constructor
        · simp [get_next_uid, counterOf]
        · simp [add_route, extract_form_data, hv, get_next_uid, counterOf, load_save]
    · simp [hv, add_route, extract_form_data]
  | del post_uid =>
    simp only [stepOp]
    rcases hfind : find_post_by_uid (load_blog_data s.fs).posts post_uid with _ | p
    · simp [delete_route, delete_post_from_list, hfind]
    · simp [delete_route, delete_post_from_list, hfind, counterOf, load_save]
  | upd post_uid m f =>
    simp only [stepOp]
    rcases hfind : find_post_by_uid (load_blog_data s.fs).posts post_uid with _ | p
    · simp [update_route, hfind]
    · cases m with
      | get => simp [update_route, hfind]
      | post =>
        by_cases hv : validate_blog_data (pyStrip (f.author.getD ""))
            (pyStrip (f.title.getD "")) (pyStrip (f.content.getD "")) = ""
        · simp [update_route, hfind, extract_form_data, hv, counterOf, load_save]
        · simp [update_route, hfind, extract_form_data, hv]

/-- Counterexample to C2 as stated: one valid create on a fresh store is a
reachable state in which the counter equals the assigned uid `1`, so the
counter is not strictly greater than every uid ever assigned. -/
theorem counter_not_strictly_greater :
    Reachable { fs := .absent, assigned := [] }
      (stepOp { fs := .absent, assigned := [] }
        (.add { author := some "A", title := some "T", content := some "C" })) ∧
    (1 : Int) ∈ (stepOp { fs := .absent, assigned := [] }
        (.add { author := some "A", title := some "T", content := some "C" })).assigned ∧
    counterOf (stepOp { fs := .absent, assigned := [] }
        (.add { author := some "A", title := some "T", content := some "C" })).fs = 1 ∧
    ¬ (∀ u ∈ (stepOp { fs := .absent, assigned := [] }
          (.add { author := some "A", title := some "T", content := some "C" })).assigned,
        u < counterOf (stepOp { fs := .absent, assigned := [] }
          (.add { author := some "A", title := some "T", content := some "C" })).fs) := by
  refine ⟨Reachable.step _ Reachable.refl, by decide, by decide, ?_⟩
  intro hc
  have h1 := hc 1 (by decide)
  have h2 : counterOf (stepOp { fs := .absent, assigned := [] }
      (.add { author := some "A", title := some "T", content := some "C" })).fs = 1 := by
    decide
  omega

/-- C2 (amended): at every state reachable from a start state with no
uids assigned yet, the counter is greater than or equal to every uid ever
assigned by `get_next_uid` (after an assignment the counter *equals* the
newest uid rather than strictly exceeding it), the assigned uids are
strictly increasing — so deleted uids are never reused — and the counter
never decreases under any operation, including delete. -/
theorem counter_bounds_assigned (fs0 : FileState) (s : SysState)
    (h : Reachable { fs := fs0, assigned := [] } s) :
    (∀ u ∈ s.assigned, u ≤ counterOf s.fs) ∧
    List.Pairwise (· < ·) s.assigned ∧
    counterOf fs0 ≤ counterOf s.fs := by
  induction h with
  | refl => simp
  | step op hr ih =>
    obtain ⟨hbound, hpw, hmono⟩ := ih
    obtain ⟨hle, hcase⟩ := stepOp_spec _ op
    rcases hcase with heq | ⟨heq, hctr⟩
    · refine ⟨?_, ?_, le_trans hmono hle⟩
      · intro u hu
        rw [heq] at hu
        exact le_trans (hbound u hu) hle
      · rw [heq]; exact hpw
    · refine ⟨?_, ?_, le_trans hmono hle⟩
      · intro u hu
        rw [heq] at hu
        rcases List.mem_append.mp hu with h1 | h2
        · exact le_trans (hbound u h1) hle
        · simp only [List.mem_singleton] at h2
          subst h2
          rw [hctr]
      · rw [heq]
        refine List.pairwise_append.mpr ⟨hpw, by simp, ?_⟩
        intro a ha b hb
        simp only [List.mem_singleton] at hb
        subst hb
        have := hbound a ha
        omega

/-- Witness for C2 (amended) at the state reached by one valid create on a
fresh store. -/
theorem counter_bounds_assigned_witness :
    (∀ u ∈ (stepOp { fs := .absent, assigned := [] }
        (.add { author := some "A", title := some "T", content := some "C" })).assigned,
      u ≤ counterOf (stepOp { fs := .absent, assigned := [] }
        (.add { author := some "A", title := some "T", content := some "C" })).fs) ∧
    List.Pairwise (· < ·) (stepOp { fs := .absent, assigned := [] }
        (.add { author := some "A", title := some "T", content := some "C" })).assigned ∧
    counterOf .absent ≤ counterOf (stepOp { fs := .absent, assigned := [] }
        (.add { author := some "A", title := some "T", content := some "C" })).fs :=
  counter_bounds_assigned .absent _ (Reachable.step _ Reachable.refl)

/-! ## Whitespace-only form fields -/

lemma pyStrip_all_whitespace (s : String) (h : s.data.all isPyWhitespace) :
    pyStrip s = "" := by
  unfold pyStrip
  have h1 : s.data.dropWhile isPyWhitespace = [] := by
    rw [List.dropWhile_eq_nil_iff]
    intro x hx
    exact List.all_eq_true.mp h x hx
  rw [h1]
  rfl

/-- C10: every submitted field is stripped of leading and trailing
whitespace by `extract_form_data` before `validate_blog_data` runs, so a
submission in which some field consists only of whitespace is treated as
empty: validation fails (non-empty error), and neither the `add` handler
nor the `update` handler persists anything — the file is unchanged. -/
theorem whitespace_only_field_rejected (fs : FileState) (post_uid : Int) (f : Form)
    (h : (f.author.getD "").data.all isPyWhitespace ∨
         (f.title.getD "").data.all isPyWhitespace ∨
         (f.content.getD "").data.all isPyWhitespace) :
    (extract_form_data f =
      (pyStrip (f.author.getD ""), pyStrip (f.title.getD ""),
       pyStrip (f.content.getD ""))) ∧
    validate_blog_data (extract_form_data f).1 (extract_form_data f).2.1
      (extract_form_data f).2.2 ≠ "" ∧
    (add_route fs f).1 = fs ∧
    (update_route fs post_uid .post f).1 = fs := by
  have hv : validate_blog_data (pyStrip (f.author.getD ""))
      (pyStrip (f.title.getD "")) (pyStrip (f.content.getD "")) ≠ "" := by
    rw [ne_eq, validate_blog_data_eq_empty_iff]
    rcases h with h | h | h
    · intro hc
      exact hc.1 (pyStrip_all_whitespace _ h)
    · intro hc
      exact hc.2.1 (pyStrip_all_whitespace _ h)
    · intro hc
      exact hc.2.2 (pyStrip_all_whitespace _ h)
  refine ⟨rfl, hv, ?_, ?_⟩
  · simp [add_route, extract_form_data, hv]
  · rcases hfind : find_post_by_uid (load_blog_data fs).posts post_uid with _ | p
    · simp [update_route, hfind]
    · simp [update_route, hfind, extract_form_data, hv]

/-- Witness for C10: a whitespace-only author field on an absent file. -/
theorem whitespace_only_field_rejected_witness :
    (extract_form_data { author := some "  ", title := some "T", content := some "C" } =
      (pyStrip ((some "  ").getD ""), pyStrip ((some "T").getD ""),
       pyStrip ((some "C").getD ""))) ∧
    validate_blog_data
      (extract_form_data { author := some "  ", title := some "T", content := some "C" }).1
      (extract_form_data { author := some "  ", title := some "T", content := some "C" }).2.1
      (extract_form_data { author := some "  ", title := some "T", content := some "C" }).2.2 ≠ "" ∧
    (add_route .absent { author := some "  ", title := some "T", content := some "C" }).1 = .absent ∧
    (update_route .absent 0 .post
      { author := some "  ", title := some "T", content := some "C" }).1 = .absent :=
  whitespace_only_field_rejected .absent 0
    { author := some "  ", title := some "T", content := some "C" }
    (Or.inl (by decide))

/-- Witness for C4 at a concrete store. -/
theorem save_then_load_roundtrip_witness :
    (load_blog_data (save_blog_data { max_uid := 7, posts := [samplePost0, samplePost1] })).max_uid =
      ({ max_uid := 7, posts := [samplePost0, samplePost1] } : BlogData).max_uid ∧
    (load_blog_data (save_blog_data { max_uid := 7, posts := [samplePost0, samplePost1] })).posts =
      ({ max_uid := 7, posts := [samplePost0, samplePost1] } : BlogData).posts :=
  save_then_load_roundtrip { max_uid := 7, posts := [samplePost0, samplePost1] }

/-- Witness for C8 at concrete field values. -/
theorem validate_blog_data_cases_witness :
    (validate_blog_data "" "T" "C" = "Author name is required" ↔ ("" : String) = "") ∧
    (validate_blog_data "" "T" "C" = "Post title is required" ↔
      (("" : String) ≠ "" ∧ ("T" : String) = "")) ∧
    (validate_blog_data "" "T" "C" = "Post content is required" ↔
      (("" : String) ≠ "" ∧ ("T" : String) ≠ "" ∧ ("C" : String) = "")) ∧
    (validate_blog_data "" "T" "C" = "" ↔
      (("" : String) ≠ "" ∧ ("T" : String) ≠ "" ∧ ("C" : String) ≠ "")) :=
  validate_blog_data_cases "" "T" "C"
